import Mathlib

/-!
# Verification of the smartfood prediction post-processing

Shallow embedding of the two inference scripts of the repository:

* `cnn_predict.py` — image-path service: base64 decode / image preprocessing,
  model invocation (opaque), top-5 extraction over a 101-way score vector,
  label display transform, HTTP error surfacing.
* `lstm_predict.py` — sequence-path service: float32 array conversion of the
  input sequence, model invocation (opaque), calorie denormalization,
  categorical argmax, artifact loading.

Floating-point scores are modelled as rationals (`ℚ`); the numeric claims under
scrutiny involve only comparisons and exact linear arithmetic, where `ℚ` agrees
with IEEE semantics on the concrete inputs used.  External library calls
(TensorFlow model, PIL, base64) are opaque parameters of the embedding.
-/

/-! ## CNN path: data and post-processing (`cnn_predict.py`) -/

/-- The Food-101 class table of `cnn_predict.py` (`FOOD_CLASSES`, lines 41-63),
in source order. -/
def FOOD_CLASSES : List String :=
  ["apple_pie", "baby_back_ribs", "baklava", "beef_carpaccio", "beef_tartare",
   "beet_salad", "beignets", "bibimbap", "bread_pudding", "breakfast_burrito",
   "bruschetta", "caesar_salad", "cannoli", "caprese_salad", "carrot_cake",
   "ceviche", "cheesecake", "cheese_plate", "chicken_curry", "chicken_quesadilla",
   "chicken_wings", "chocolate_cake", "chocolate_mousse", "churros", "clam_chowder",
   "club_sandwich", "crab_cakes", "creme_brulee", "croque_madame", "cup_cakes",
   "deviled_eggs", "donuts", "dumplings", "edamame", "eggs_benedict",
   "escargots", "falafel", "filet_mignon", "fish_and_chips", "foie_gras",
   "french_fries", "french_onion_soup", "french_toast", "fried_calamari", "fried_rice",
   "frozen_yogurt", "garlic_bread", "gnocchi", "greek_salad", "grilled_cheese_sandwich",
   "grilled_salmon", "guacamole", "gyoza", "hamburger", "hot_and_sour_soup",
   "hot_dog", "huevos_rancheros", "hummus", "ice_cream", "lasagna",
   "lobster_bisque", "lobster_roll_sandwich", "macaroni_and_cheese", "macarons", "miso_soup",
   "mussels", "nachos", "omelette", "onion_rings", "oysters",
   "pad_thai", "paella", "pancakes", "panna_cotta", "peking_duck",
   "pho", "pizza", "pork_chop", "poutine", "prime_rib",
   "pulled_pork_sandwich", "ramen", "ravioli", "red_velvet_cake", "risotto",
   "samosa", "sashimi", "scallops", "seaweed_salad", "shrimp_and_grits",
   "spaghetti_bolognese", "spaghetti_carbonara", "spring_rolls", "steak", "strawberry_shortcake",
   "sushi", "tacos", "takoyaki", "tiramisu", "tuna_tartare",
   "waffles"]

/-- `NUM_CLASSES` of `cnn_predict.py` (line 69). -/
def NUM_CLASSES : Nat := 101

/-- An idealized ascending ordering of the indices of `v` by score:
`idxLe v i j` holds when `v[i] < v[j]`, or the scores tie and `i ≤ j` (ties
normalized toward ascending index).  `np.argsort` under the default kind
gives no tie-order guarantee, so this order is used only for properties
that hold under *any* ascending index ordering (the top-5 length/ordering
invariant and the unique-maximum property), where the tie direction is
immaterial.  Where the tie direction does matter, the faithful
transcription of the default kind's algorithm, `aquicksort` below, is used
instead.  Out-of-range indices read the default `0`; `argsort` only ever
compares in-range indices. -/
def idxLe (v : List ℚ) (i j : Nat) : Prop :=
  v.getD i 0 < v.getD j 0 ∨ (v.getD i 0 = v.getD j 0 ∧ i ≤ j)

instance (v : List ℚ) : DecidableRel (idxLe v) := fun i j => by
  unfold idxLe; exact inferInstance

instance (v : List ℚ) : IsTotal Nat (idxLe v) where
  total i j := by
    unfold idxLe
    rcases lt_trichotomy (v.getD i 0) (v.getD j 0) with h | h | h
    · exact Or.inl (Or.inl h)
    · rcases Nat.le_total i j with hij | hij
      · exact Or.inl (Or.inr ⟨h, hij⟩)
      · exact Or.inr (Or.inr ⟨h.symm, hij⟩)
    · exact Or.inr (Or.inl h)

instance (v : List ℚ) : IsTrans Nat (idxLe v) where
  trans i j k hij hjk := by
    unfold idxLe at *
    rcases hij with h₁ | ⟨e₁, l₁⟩
    · rcases hjk with h₂ | ⟨e₂, _⟩
      · exact Or.inl (h₁.trans h₂)
      · exact Or.inl (e₂ ▸ h₁)
    · rcases hjk with h₂ | ⟨e₂, l₂⟩
      · exact Or.inl (e₁ ▸ h₂)
      · exact Or.inr ⟨e₁.trans e₂, l₁.trans l₂⟩

/-- `np.argsort(predictions[0])` (`cnn_predict.py` line 129), modelled up
to tie order: the indices `0, …, v.length - 1` sorted ascending by score,
ties normalized by ascending index (see `idxLe`).  Every run of
`np.argsort` returns *some* ascendingly ordered index permutation, and the
properties proved from this model hold for all of them; the exact tie
behaviour of the default kind is modelled separately by `aquicksort`. -/
def argsort (v : List ℚ) : List Nat :=
  List.insertionSort (idxLe v) (List.range v.length)

/-- `np.argsort(predictions[0])[-5:][::-1]` (`cnn_predict.py` line 129):
Python `a[-5:]` keeps the last five elements (`List.drop (n - 5)`), and
`[::-1]` reverses them, so the result lists the five highest-scoring indices
in descending score order. -/
def top5Indices (v : List ℚ) : List Nat :=
  ((argsort v).drop (v.length - 5)).reverse

/-- One entry of the `top_5` list (`cnn_predict.py` lines 139-142). -/
structure Top5Entry where
  label : String
  score : ℚ
  deriving DecidableEq, Repr

/-- The image-path `PredictionResult` dict (`cnn_predict.py` lines 144-149).
The source key `class` is a Lean keyword, rendered here as `cls`. -/
structure CNNResult where
  cls : String
  label : String
  confidence : ℚ
  top5 : List Top5Entry
  deriving DecidableEq, Repr

/-- The character replacement underlying the label display transform. -/
def underscoreToSpace (c : Char) : Char :=
  if c = '_' then ' ' else c

/-- The label display transform `top_class.replace('_', ' ')`
(`cnn_predict.py` line 146).  Python `str.replace` with a one-character
pattern replaces every occurrence, i.e. maps the string character-wise. -/
def displayLabel (s : String) : String :=
  String.mk (s.data.map underscoreToSpace)

/-- The output-normalisation half of `predict` (`cnn_predict.py` lines
128-149): from the raw score vector, extract the top-5 indices, the top
class/confidence, and build the result dict.  Python indexes
`top_5_indices[0]` and `FOOD_CLASSES[...]` directly; those indexings are
in range for the 101-way vectors this service produces, and the embedding
reads them with defaults (`List.getD`/`List.headD`). -/
def cnnPredictPost (v : List ℚ) : CNNResult :=
  let idxs := top5Indices v
  let topIndex := idxs.headD 0
  let topClass := FOOD_CLASSES.getD topIndex ""
  { cls := topClass
    label := displayLabel topClass
    confidence := v.getD topIndex 0
    top5 := idxs.map (fun i => ⟨FOOD_CLASSES.getD i "", v.getD i 0⟩) }

/-! ## CNN path: properties of the argsort model -/

lemma argsort_sorted (v : List ℚ) : (argsort v).Pairwise (idxLe v) :=
  List.sorted_insertionSort _ _

lemma argsort_perm (v : List ℚ) : List.Perm (argsort v) (List.range v.length) :=
  List.perm_insertionSort _ _

lemma argsort_length (v : List ℚ) : (argsort v).length = v.length := by
  simp [argsort]

lemma mem_argsort {v : List ℚ} {i : Nat} : i ∈ argsort v ↔ i < v.length := by
  rw [(argsort_perm v).mem_iff, List.mem_range]

lemma idxLe_refl (v : List ℚ) (i : Nat) : idxLe v i i :=
  Or.inr ⟨rfl, le_rfl⟩

lemma idxLe.score_le {v : List ℚ} {i j : Nat} (h : idxLe v i j) :
    v.getD i 0 ≤ v.getD j 0 := by
  rcases h with h | ⟨h, _⟩
  · exact h.le
  · exact h.le

lemma idxLe_antisymm {v : List ℚ} {i j : Nat} (h₁ : idxLe v i j) (h₂ : idxLe v j i) :
    i = j := by
  rcases h₁ with h₁ | ⟨e₁, l₁⟩
  · exact absurd h₂.score_le (not_le.mpr h₁)
  · rcases h₂ with h₂ | ⟨_, l₂⟩
    · exact absurd e₁.le (not_le.mpr h₂)
    · exact Nat.le_antisymm l₁ l₂

/-- In a `Pairwise r` list with `r` reflexive, every element is `r`-below the
last element. -/
lemma pairwise_rel_getLast {α : Type _} {r : α → α → Prop} (hrefl : ∀ a, r a a) :
    ∀ {l : List α} (_ : l.Pairwise r) (hne : l ≠ []) {a}, a ∈ l → r a (l.getLast hne)
  | [], _, hne, _, _ => absurd rfl hne
  | x :: t, hp, hne, a, ha => by
    cases t with
    | nil =>
      rcases List.mem_singleton.mp ha with rfl
      exact hrefl a
    | cons b t' =>
      rw [List.getLast_cons (l := b :: t') (List.cons_ne_nil b t')]
      rcases List.mem_cons.mp ha with rfl | ha'
      · exact (List.pairwise_cons.mp hp).1 _ (List.getLast_mem _)
      · exact pairwise_rel_getLast hrefl (List.pairwise_cons.mp hp).2 _ ha'

/-- Dropping fewer elements than the length preserves the last element. -/
lemma getLast?_drop_of_lt {α : Type _} :
    ∀ (l : List α) (k : Nat), k < l.length → (l.drop k).getLast? = l.getLast?
  | [], k, h => absurd h (Nat.not_lt_zero k)
  | _ :: t, 0, _ => rfl
  | a :: t, k + 1, h => by
    have ht : k < t.length := Nat.lt_of_succ_lt_succ (by simpa using h)
    have hne : t ≠ [] := List.ne_nil_of_length_pos (Nat.lt_of_le_of_lt (Nat.zero_le k) ht)
    rw [List.drop_succ_cons, getLast?_drop_of_lt t k ht]
    cases t with
    | nil => exact absurd rfl hne
    | cons b t' => simp

/-- The first element of `top5Indices v` is the last element of the ascending
argsort.  Holds whenever `v` is non-empty. -/
lemma top5Indices_headD (v : List ℚ) (hne : 0 < v.length) :
    (top5Indices v).headD 0 = (argsort v).getLastD 0 := by
  have hlen : v.length - 5 < (argsort v).length := by
    rw [argsort_length]; omega
  simp only [top5Indices, List.headD_eq_head?_getD, List.head?_reverse,
    getLast?_drop_of_lt _ _ hlen, List.getLastD_eq_getLast?]

/-- If `m` is `idxLe`-maximal among the indices of `v`, then the argsort ends
with `m`. -/
lemma argsort_getLastD (v : List ℚ) (m : Nat) (hm : m < v.length)
    (hmax : ∀ k, k < v.length → idxLe v k m) :
    (argsort v).getLastD 0 = m := by
  have hmem : m ∈ argsort v := mem_argsort.mpr hm
  have hne : argsort v ≠ [] := List.ne_nil_of_mem hmem
  set l := (argsort v).getLast hne with hl
  have hlmem : l ∈ argsort v := List.getLast_mem hne
  have h₁ : idxLe v l m := hmax l (mem_argsort.mp hlmem)
  have h₂ : idxLe v m l :=
    pairwise_rel_getLast (idxLe_refl v) (argsort_sorted v) hne hmem
  have : m = l := idxLe_antisymm h₂ h₁
  rw [List.getLastD_eq_getLast?, List.getLast?_eq_getLast_of_ne_nil hne, ← hl, ← this,
    Option.getD_some]

/-! ## Claim C3 — top_5 length and ordering -/

/-- C3: for every prediction vector of length 101, the image-path result's
`top_5` has length exactly 5 and its scores are non-increasing from the first
entry to the fifth. -/
theorem C3_top5_length_and_nonincreasing (v : List ℚ) (hlen : v.length = 101) :
    (cnnPredictPost v).top5.length = 5 ∧
    (cnnPredictPost v).top5.Pairwise (fun a b => b.score ≤ a.score) := by
  constructor
  · simp [cnnPredictPost, top5Indices, argsort_length, hlen]
  · have h₁ : ((argsort v).drop (v.length - 5)).Pairwise (idxLe v) :=
      List.Pairwise.sublist (List.drop_sublist _ _) (argsort_sorted v)
    have h₂ : (top5Indices v).Pairwise (fun i j => idxLe v j i) := by
      rw [top5Indices, List.pairwise_reverse]
      exact h₁
    simpa [cnnPredictPost] using
      h₂.map (fun i => (⟨FOOD_CLASSES.getD i "", v.getD i 0⟩ : Top5Entry))
        (fun i j h => h.score_le)

/-- A concrete length-101 score vector used to instantiate C3. -/
def w3 : List ℚ := (List.range 101).map (fun k => ((k : ℚ) - 50) / 7)

/-- Witness for C3 at the concrete vector `w3`. -/
theorem C3_witness :
    (cnnPredictPost w3).top5.length = 5 ∧
    (cnnPredictPost w3).top5.Pairwise (fun a b => b.score ≤ a.score) :=
  C3_top5_length_and_nonincreasing w3 (by decide)

/-- If `m` is the largest index attaining the maximum of `v`, the top-5
extraction places `m` first. -/
lemma top5Indices_headD_of_max (v : List ℚ) (m : Nat) (hm : m < v.length)
    (hmax : ∀ k, k < v.length → v.getD k 0 ≤ v.getD m 0)
    (hhigh : ∀ k, k < v.length → v.getD k 0 = v.getD m 0 → k ≤ m) :
    (top5Indices v).headD 0 = m := by
  have hidx : ∀ k, k < v.length → idxLe v k m := by
    intro k hk
    rcases lt_or_eq_of_le (hmax k hk) with h | h
    · exact Or.inl h
    · exact Or.inr ⟨h, hhigh k hk h⟩
  rw [top5Indices_headD v (by omega)]
  exact argsort_getLastD v m hm hidx

/-! ## Claim C6 — unique maximum gives top class and confidence -/

/-- C6: for every prediction vector of length 101 with a unique maximum at
index `m`, the image-path result's `confidence` equals that maximum value and
its `class` equals the `FOOD_CLASSES` table entry at `m`. -/
theorem C6_unique_max_confidence_class (v : List ℚ) (m : Nat)
    (_hlen : v.length = 101) (hm : m < v.length)
    (huniq : ∀ k, k < v.length → k ≠ m → v.getD k 0 < v.getD m 0) :
    (cnnPredictPost v).confidence = v.getD m 0 ∧
    (cnnPredictPost v).cls = FOOD_CLASSES.getD m "" := by
  have hhead : (top5Indices v).headD 0 = m := by
    refine top5Indices_headD_of_max v m hm ?_ ?_
    · intro k hk
      rcases Decidable.em (k = m) with rfl | hne
      · exact le_rfl
      · exact (huniq k hk hne).le
    · intro k hk he
      rcases Decidable.em (k = m) with rfl | hne
      · exact le_rfl
      · exact absurd he (ne_of_lt (huniq k hk hne))
  have hh₂ : (top5Indices v).head?.getD 0 = m := by
    simpa [List.headD_eq_head?_getD] using hhead
  exact ⟨by simp [cnnPredictPost, hh₂], by simp [cnnPredictPost, hh₂]⟩

/-- A length-101 vector whose unique maximum sits at index 37
(`filet_mignon`). -/
def w6 : List ℚ := (List.range 101).map (fun k => if k = 37 then (1 : ℚ) else 0)

/-- Witness for C6 at the concrete vector `w6`. -/
theorem C6_witness :
    (cnnPredictPost w6).confidence = w6.getD 37 0 ∧
    (cnnPredictPost w6).cls = FOOD_CLASSES.getD 37 "" :=
  C6_unique_max_confidence_class w6 37 (by decide) (by decide) (by decide)

/-! ## Claim C1 — tie-break direction of the top-1 among equal maxima

Which of two exactly equal scores wins rank 0 depends on the tie behaviour
of numpy's default sort kind (`quicksort`, an introsort), which the
idealized `argsort` above deliberately does not fix.  The functions below
transcribe that algorithm — `aquicksort_` of numpy's
`npysort/quicksort.c.src`: median-of-3 Hoare partitioning on an index
array, with subranges of at most 16 elements finished by insertion sort,
and a heapsort fallback once the depth budget `2*msb(n)` is exhausted.
The C loops are written as recursions with explicit iteration bounds
returning `Option`: `none` (a bound exhausted, or the heapsort fallback,
which a 101-element run never reaches) can never be mistaken for an
answer, because the theorems assert `some` results. -/

/-- numpy's `SMALL_QUICKSORT` threshold: partitioning stops once a subrange
has at most 16 elements (`pr - pl ≤ 15`). -/
def SMALL_QUICKSORT : Nat := 15

/-- In-bounds array update (`tosort[i] = x`); out-of-range writes do not
occur in the algorithm. -/
def aset (t : Array Nat) (i : Nat) (x : Nat) : Array Nat :=
  if h : i < t.size then t.set ⟨i, h⟩ x else t

/-- `std::swap(tosort[i], tosort[j])`. -/
def aswap (t : Array Nat) (i j : Nat) : Array Nat :=
  let x := t.getD i 0
  let y := t.getD j 0
  aset (aset t i y) j x

/-- The score under the index stored at position `p`: `v[tosort[p]]`. -/
def vAt (v : Array ℚ) (t : Array Nat) (p : Nat) : ℚ :=
  v.getD (t.getD p 0) 0

/-- `do { ++pi; } while (v[*pi] < vp)`: first position strictly right of `p`
whose score is not below the pivot. -/
def scanUp (v : Array ℚ) (t : Array Nat) (vp : ℚ) : Nat → Nat → Option Nat
  | _, 0 => none
  | p, fuel + 1 =>
    let p' := p + 1
    if vAt v t p' < vp then scanUp v t vp p' fuel else some p'

/-- `do { --pj; } while (vp < v[*pj])`: first position strictly left of `p`
whose score is not above the pivot. -/
def scanDown (v : Array ℚ) (t : Array Nat) (vp : ℚ) : Nat → Nat → Option Nat
  | _, 0 => none
  | p, fuel + 1 =>
    let p' := p - 1
    if vp < vAt v t p' then scanDown v t vp p' fuel else some p'

/-- The inner Hoare partition loop: scan inward from both ends, swapping
out-of-place pairs, until the scans cross; returns the crossing position. -/
def partitionLoop (v : Array ℚ) (vp : ℚ) :
    Array Nat → Nat → Nat → Nat → Option (Array Nat × Nat)
  | _, _, _, 0 => none
  | t, pi, pj, fuel + 1 => do
    let pi' ← scanUp v t vp pi (t.size + 1)
    let pj' ← scanDown v t vp pj (t.size + 1)
    if pi' ≥ pj' then some (t, pi')
    else partitionLoop v vp (aswap t pi' pj') pi' pj' fuel

/-- One `aquicksort_` partition step on `[pl, pr]`: order
`v[*pl] ≤ v[*pm] ≤ v[*pr]` by median-of-3 swaps, stash the pivot index at
`pr - 1`, run the partition loop from `(pl, pr - 1)`, and finally swap the
pivot to the crossing position. -/
def doPartition (v : Array ℚ) (t : Array Nat) (pl pr : Nat) :
    Option (Array Nat × Nat) :=
  let pm := pl + (pr - pl) / 2
  let t := if vAt v t pm < vAt v t pl then aswap t pm pl else t
  let t := if vAt v t pr < vAt v t pm then aswap t pr pm else t
  let t := if vAt v t pm < vAt v t pl then aswap t pm pl else t
  let vp := vAt v t pm
  let t := aswap t pm (pr - 1)
  match partitionLoop v vp t pl (pr - 1) (pr - pl + 2) with
  | none => none
  | some (t, pi) => some (aswap t pi (pr - 1), pi)

/-- `while (pj > pl && LT(vp, v[*pk])) { *pj-- = *pk--; }`: shift
greater-scored entries one slot right, returning the insertion slot. -/
def insertShift (v : Array ℚ) (vp : ℚ) (pl : Nat) :
    Array Nat → Nat → Nat → Array Nat × Nat
  | t, pj, 0 => (t, pj)
  | t, pj, fuel + 1 =>
    if pl < pj ∧ vp < v.getD (t.getD (pj - 1) 0) 0 then
      insertShift v vp pl (aset t pj (t.getD (pj - 1) 0)) (pj - 1) fuel
    else (t, pj)

/-- `for (pi = pl + 1; pi <= pr; ++pi)` of the insertion sort: insert each
entry into the sorted prefix. -/
def isortLoop (v : Array ℚ) (pl : Nat) : Array Nat → Nat → Nat → Array Nat
  | t, _, 0 => t
  | t, pi, rem + 1 =>
    let vi := t.getD pi 0
    let vp := v.getD vi 0
    let r := insertShift v vp pl t pi pi
    isortLoop v pl (aset r.1 r.2 vi) (pi + 1) rem

/-- The insertion sort `aquicksort_` applies to a small subrange `[pl, pr]`. -/
def insertionSortRange (v : Array ℚ) (t : Array Nat) (pl pr : Nat) : Array Nat :=
  isortLoop v pl t (pl + 1) (pr - pl)

/-- The outer `aquicksort_` loop: partition while the range holds more than
16 elements, pushing the larger side on an explicit stack and descending
into the smaller; finish small ranges by insertion sort and pop the stack.
`depth < 0` is the heapsort fallback (modelled as `none`; unreached in the
runs below, as their `some` results certify). -/
def qsLoop (v : Array ℚ) :
    Array Nat → Nat → Nat → List (Nat × Nat) → Int → Nat → Option (Array Nat)
  | _, _, _, _, _, 0 => none
  | t, pl, pr, stk, depth, fuel + 1 =>
    if SMALL_QUICKSORT < pr - pl then
      if depth < 0 then none
      else
        match doPartition v t pl pr with
        | none => none
        | some (t, pi) =>
          if pi - pl < pr - pi then
            qsLoop v t pl (pi - 1) ((pi + 1, pr) :: stk) (depth - 1) fuel
          else
            qsLoop v t (pi + 1) pr ((pl, pi - 1) :: stk) (depth - 1) fuel
    else
      let t := insertionSortRange v t pl pr
      match stk with
      | [] => some t
      | (pl', pr') :: stk' => qsLoop v t pl' pr' stk' depth fuel

/-- `npy_get_msb`, written with a structural bound so it reduces in the
kernel: the position of the highest set bit. -/
def msbFuel : Nat → Nat → Nat
  | _, 0 => 0
  | n, fuel + 1 => if n ≤ 1 then 0 else msbFuel (n / 2) fuel + 1

/-- `npy_get_msb(num)`. -/
def npyGetMsb (n : Nat) : Nat := msbFuel n n

/-- `np.argsort(v)` under the default kind: run `aquicksort_` over the
index array `[0, …, n-1]` with depth budget `2 * npy_get_msb(n)`.  The
outer-loop bound `4 * n + 64` is ample (each iteration retires a range);
the concrete runs below return `some`, certifying no bound was hit. -/
def aquicksort (v : List ℚ) : Option (List Nat) :=
  let n := v.length
  match qsLoop v.toArray (List.range n).toArray 0 (n - 1) []
      (2 * (npyGetMsb n : Int)) (4 * n + 64) with
  | none => none
  | some t => some t.toList

/-- `np.argsort(predictions[0])[-5:][::-1]` under the faithful default-kind
model `aquicksort`. -/
def top5IndicesNp (v : List ℚ) : Option (List Nat) :=
  (aquicksort v).map (fun idxs => (idxs.drop (v.length - 5)).reverse)

/-- A length-101 vector with duplicate maxima at indices 0 < 1. -/
def vDup : List ℚ := 1 :: 1 :: List.replicate 99 0

/-- A length-101 vector with duplicate maxima at indices 3 < 97. -/
def vHL : List ℚ :=
  (List.range 101).map (fun k => if k = 3 ∨ k = 97 then (1 : ℚ) else 0)

set_option maxRecDepth 10000 in
/-- The full default-kind extraction at `vDup`: the lower tied index wins. -/
lemma aquicksort_top5_vDup : top5IndicesNp vDup = some [0, 1, 37, 27, 28] := by
  decide

set_option maxRecDepth 10000 in
/-- The full default-kind extraction at `vHL`: the higher tied index wins. -/
lemma aquicksort_top5_vHL : top5IndicesNp vHL = some [97, 3, 100, 37, 27] := by
  decide

/-- C1 counterexample: `vHL` has its maximum score duplicated at indices
`3 < 97`, yet rank 0 of the top-5 extraction under the faithful
default-kind model is index 97, not the lower index 3. -/
theorem C1_counterexample :
    vHL.length = 101 ∧
    vHL.getD 3 0 = vHL.getD 97 0 ∧
    ((List.range 101).all (fun k => vHL.getD k 0 ≤ vHL.getD 3 0)) = true ∧
    top5IndicesNp vHL = some [97, 3, 100, 37, 27] ∧
    ((top5IndicesNp vHL).getD []).headD 0 ≠ 3 := by
  refine ⟨by decide, by decide, by decide, aquicksort_top5_vHL, ?_⟩
  rw [aquicksort_top5_vHL]
  decide

/-- C1 (amended): the image-path top-5 extraction is deterministic on
repeated runs (it is a pure function of the prediction vector), but ties
among exactly equal scores do NOT uniformly break toward the lower index:
under the faithful model of `np.argsort`'s default introsort, duplicate
maxima at indices 0 < 1 put the *lower* index 0 at rank 0, while duplicate
maxima at indices 3 < 97 put the *higher* index 97 at rank 0 — the tie
direction is input-dependent. -/
theorem C1_tie_direction_input_dependent :
    (vDup.getD 0 0 = vDup.getD 1 0 ∧
      ((List.range 101).all (fun k => vDup.getD k 0 ≤ vDup.getD 0 0)) = true ∧
      top5IndicesNp vDup = some [0, 1, 37, 27, 28] ∧
      ((top5IndicesNp vDup).getD []).headD 0 = 0) ∧
    (vHL.getD 3 0 = vHL.getD 97 0 ∧
      ((List.range 101).all (fun k => vHL.getD k 0 ≤ vHL.getD 3 0)) = true ∧
      top5IndicesNp vHL = some [97, 3, 100, 37, 27] ∧
      ((top5IndicesNp vHL).getD []).headD 0 = 97) := by
  refine ⟨⟨by decide, by decide, aquicksort_top5_vDup, ?_⟩,
    ⟨by decide, by decide, aquicksort_top5_vHL, ?_⟩⟩
  · rw [aquicksort_top5_vDup]
    decide
  · rw [aquicksort_top5_vHL]
    decide

/-! ## Claim C7 — label display transform -/

/-- C7: the label display transform replaces every underscore with a space
(no underscore remains in the output), is total (a function on all of
`String`), is idempotent, returns a label containing no underscore
unchanged, and maps "chicken_curry" to "chicken curry". -/
theorem C7_displayLabel_transform :
    (∀ s : String, '_' ∉ (displayLabel s).data) ∧
    (∀ s : String, displayLabel (displayLabel s) = displayLabel s) ∧
    (∀ s : String, (∀ c ∈ s.data, c ≠ '_') → displayLabel s = s) ∧
    displayLabel "chicken_curry" = "chicken curry" := by
  refine ⟨?_, ?_, ?_, by decide⟩
  · intro s hmem
    rcases List.mem_map.mp hmem with ⟨c, _, hc⟩
    by_cases h : c = '_' <;> simp [underscoreToSpace, h] at hc
  · intro s
    obtain ⟨l⟩ := s
    show String.mk ((l.map underscoreToSpace).map underscoreToSpace) =
      String.mk (l.map underscoreToSpace)
    rw [List.map_map]
    refine congrArg String.mk (List.map_congr_left ?_)
    intro c _
    by_cases h : c = '_' <;> simp [underscoreToSpace, h]
  · intro s hno
    obtain ⟨l⟩ := s
    show String.mk (l.map underscoreToSpace) = String.mk l
    refine congrArg String.mk ?_
    have hfix : ∀ c ∈ l, underscoreToSpace c = c := by
      intro c hc
      simp [underscoreToSpace, hno c hc]
    simp [List.map_congr_left hfix]

/-- Witness for C7 at the underscore-free label "pizza". -/
theorem C7_witness : displayLabel "pizza" = "pizza" :=
  C7_displayLabel_transform.2.2.1 "pizza" (by decide)

/-! ## LSTM path: data model and post-processing (`lstm_predict.py`) -/

/-- `scaler_params.json` content (`{min:[float], max:[float]}`). -/
structure ScalerParams where
  min : List ℚ
  max : List ℚ
  deriving DecidableEq, Repr

/-- `model_config.json` content (`{food_categories:[string]}`). -/
structure ModelConfig where
  food_categories : List String
  deriving DecidableEq, Repr

/-- The sequence-path result dict (`lstm_predict.py` lines 120-124):
`category` is the raw integer index, not a label string. -/
structure LSTMResult where
  calories : ℚ
  category : Nat
  categoryConfidence : ℚ
  deriving DecidableEq, Repr

/-- Calorie denormalization (`lstm_predict.py` lines 110-113):
`cal_min = scaler_params['min'][0]`, `cal_max = scaler_params['max'][0]`,
`predicted_calories = calories_pred * (cal_max - cal_min) + cal_min`. -/
def denormCalories (sp : ScalerParams) (caloriesPred : ℚ) : ℚ :=
  caloriesPred * (sp.max.getD 0 0 - sp.min.getD 0 0) + sp.min.getD 0 0

/-- `np.argmax` over the categorical vector (`lstm_predict.py` line 116):
index of the *first* occurrence of the maximum (numpy documents first-
occurrence tie-breaking).  `0` on the empty vector, where numpy raises
instead; the service's category head is non-empty. -/
def npArgmax : List ℚ → Nat
  | [] => 0
  | [_] => 0
  | x :: y :: ys =>
    let j := npArgmax (y :: ys)
    if x < (y :: ys).getD j 0 then j + 1 else 0

lemma npArgmax_lt_length : ∀ (v : List ℚ), v ≠ [] → npArgmax v < v.length
  | [], h => absurd rfl h
  | [_], _ => Nat.zero_lt_one
  | x :: y :: ys, _ => by
    show (if x < (y :: ys).getD (npArgmax (y :: ys)) 0 then npArgmax (y :: ys) + 1 else 0) <
      (x :: y :: ys).length
    split
    · exact Nat.succ_lt_succ (npArgmax_lt_length (y :: ys) (List.cons_ne_nil y ys))
    · exact Nat.zero_lt_succ _

lemma npArgmax_is_max : ∀ (v : List ℚ) (k : Nat), k < v.length →
    v.getD k 0 ≤ v.getD (npArgmax v) 0
  | [], k, hk => absurd hk (by simp)
  | [x], k, hk => by
    have hk0 : k = 0 := Nat.lt_one_iff.mp (by simpa using hk)
    subst hk0
    simp [npArgmax]
  | x :: y :: ys, k, hk => by
    show (x :: y :: ys).getD k 0 ≤
      (x :: y :: ys).getD (if x < (y :: ys).getD (npArgmax (y :: ys)) 0
        then npArgmax (y :: ys) + 1 else 0) 0
    split
    · rename_i hlt
      rw [List.getD_cons_succ]
      cases k with
      | zero => exact le_of_lt (by simpa using hlt)
      | succ k' =>
        rw [List.getD_cons_succ]
        exact npArgmax_is_max (y :: ys) k' (Nat.lt_of_succ_lt_succ hk)
    · rename_i hge
      rw [List.getD_cons_zero]
      cases k with
      | zero => simp
      | succ k' =>
        rw [List.getD_cons_succ]
        calc (y :: ys).getD k' 0
            ≤ (y :: ys).getD (npArgmax (y :: ys)) 0 :=
              npArgmax_is_max (y :: ys) k' (Nat.lt_of_succ_lt_succ hk)
          _ ≤ x := le_of_not_lt hge

lemma npArgmax_first : ∀ (v : List ℚ) (k : Nat), k < v.length →
    v.getD k 0 = v.getD (npArgmax v) 0 → npArgmax v ≤ k
  | [], k, hk, _ => absurd hk (by simp)
  | [_], k, _, _ => by simp [npArgmax]
  | x :: y :: ys, k, hk, he => by
    revert he
    show (x :: y :: ys).getD k 0 =
        (x :: y :: ys).getD (if x < (y :: ys).getD (npArgmax (y :: ys)) 0
          then npArgmax (y :: ys) + 1 else 0) 0 →
      (if x < (y :: ys).getD (npArgmax (y :: ys)) 0
        then npArgmax (y :: ys) + 1 else 0) ≤ k
    split
    · rename_i hlt
      rw [List.getD_cons_succ]
      intro he
      cases k with
      | zero =>
        rw [List.getD_cons_zero] at he
        exact absurd (he ▸ hlt) (lt_irrefl _)
      | succ k' =>
        rw [List.getD_cons_succ] at he
        exact Nat.succ_le_succ
          (npArgmax_first (y :: ys) k' (Nat.lt_of_succ_lt_succ hk) he)
    · intro _
      exact Nat.zero_le k

/-- An opaque LSTM model invocation (`model.predict` at `lstm_predict.py`
line 104): from the input array to the calorie scalar
(`predictions[0][0][0]`) and the category probability vector
(`predictions[1][0]`). -/
abbrev LSTMModel : Type := List (List ℚ) → ℚ × List ℚ

/-- The output-normalisation half of the sequence-path `predict`
(`lstm_predict.py` lines 107-124): denormalize the calorie head, take the
argmax of the category head, look up `model_config['food_categories']` at
that index — a lookup whose result (`predicted_category`) is bound but never
used in the returned dict, and which raises `IndexError` when the index is
out of range — and build the result from the index alone. -/
def lstmPredictPost (sp : ScalerParams) (mc : ModelConfig)
    (caloriesPred : ℚ) (categoryPred : List ℚ) : Except String LSTMResult :=
  let predictedCalories := denormCalories sp caloriesPred
  let categoryIndex := npArgmax categoryPred
  if categoryIndex < mc.food_categories.length then
    let _predictedCategory := mc.food_categories.getD categoryIndex ""
    Except.ok
      { calories := predictedCalories
        category := categoryIndex
        categoryConfidence := categoryPred.getD categoryIndex 0 }
  else Except.error "IndexError: list index out of range"

/-- One entry of the wire-level input sequence: either numeric (convertible
to float32) or not. -/
inductive Entry where
  | num (q : ℚ)
  | nonNum (s : String)
  deriving DecidableEq, Repr

/-- Float32 cast of one row; fails on a non-numeric entry. -/
def rowToFloats : List Entry → Option (List ℚ)
  | [] => some []
  | Entry.num q :: es => (rowToFloats es).map (fun r => q :: r)
  | Entry.nonNum _ :: _ => none

/-- Entry-wise float32 cast of the whole sequence. -/
def seqToFloats : List (List Entry) → Option (List (List ℚ))
  | [] => some []
  | row :: rest =>
    match rowToFloats row, seqToFloats rest with
    | some r, some rs => some (r :: rs)
    | _, _ => none

/-- `np.array([sequence], dtype=np.float32)` (`lstm_predict.py` line 101):
numpy infers the nested shape — raising `ValueError` on ragged rows — and
casts the entries to float32, raising `ValueError` on non-numeric entries.
No step-count or feature-count check occurs: every rectangular numeric
sequence is accepted, whatever its dimensions. -/
def toFloat32Array (seq : List (List Entry)) : Except String (List (List ℚ)) :=
  if seq.all (fun row => row.length = (seq.headD []).length) then
    match seqToFloats seq with
    | some rows => Except.ok rows
    | none => Except.error "ValueError: could not convert entry to float32"
  else Except.error "ValueError: inhomogeneous input shape"

/-- The sequence-path `predict` (`lstm_predict.py` lines 88-124) after the
artifacts are loaded: convert the wire-level sequence to a float32 array,
invoke the model on the converted array, post-process the two heads.  The
conversion error, when it occurs, propagates before the model is invoked. -/
def lstmPredict (sp : ScalerParams) (mc : ModelConfig) (model : LSTMModel)
    (seq : List (List Entry)) : Except String LSTMResult :=
  match toFloat32Array seq with
  | Except.error e => Except.error e
  | Except.ok arr =>
    let preds := model arr
    lstmPredictPost sp mc preds.1 preds.2

/-! ## Claim C4 — calorie denormalization -/

/-- C4: calorie denormalization computes
`normalized * (max - min) + min` from index 0 of the stored scaler arrays;
with min 0 and max 1000 a normalized 1/2 yields 500, and in the degenerate
min = max = 200 case every input yields 200 (no division occurs anywhere in
the transform). -/
theorem C4_denormalization :
    (∀ (sp : ScalerParams) (x : ℚ),
      denormCalories sp x = x * (sp.max.getD 0 0 - sp.min.getD 0 0) + sp.min.getD 0 0) ∧
    denormCalories ⟨[0], [1000]⟩ (1/2) = 500 ∧
    (∀ x : ℚ, denormCalories ⟨[200], [200]⟩ x = 200) := by
  refine ⟨fun sp x => rfl, by norm_num [denormCalories], fun x => by simp [denormCalories]⟩

/-! ## Claim C5 — category argmax, integer index, confidence -/

/-- C5: for every non-empty categorical vector whose argmax is covered by the
category table, the sequence-path result's `category` is the argmax index of
the vector (ties broken toward the lower index, as the accompanying
maximality and first-occurrence conjuncts state), emitted as the raw integer
index in the `category` field, and `categoryConfidence` is the vector's
value at that index. -/
theorem C5_category_is_first_argmax (sp : ScalerParams) (mc : ModelConfig)
    (c : ℚ) (v : List ℚ) (hne : v ≠ [])
    (hlt : npArgmax v < mc.food_categories.length) :
    lstmPredictPost sp mc c v =
      Except.ok
        { calories := denormCalories sp c
          category := npArgmax v
          categoryConfidence := v.getD (npArgmax v) 0 } ∧
    npArgmax v < v.length ∧
    (∀ k, k < v.length → v.getD k 0 ≤ v.getD (npArgmax v) 0) ∧
    (∀ k, k < v.length → v.getD k 0 = v.getD (npArgmax v) 0 → npArgmax v ≤ k) := by
  refine ⟨?_, npArgmax_lt_length v hne, npArgmax_is_max v, npArgmax_first v⟩
  simp [lstmPredictPost, hlt]

/-- The concrete two-way category head used to instantiate C5. -/
def w5 : List ℚ := [1, 3]

/-- Witness for C5 at the concrete category head `w5`. -/
theorem C5_witness :
    lstmPredictPost ⟨[0], [1]⟩ ⟨["protein", "carb"]⟩ 2 w5 =
      Except.ok
        { calories := denormCalories ⟨[0], [1]⟩ 2
          category := npArgmax w5
          categoryConfidence := w5.getD (npArgmax w5) 0 } ∧
    npArgmax w5 < w5.length ∧
    (∀ k, k < w5.length → w5.getD k 0 ≤ w5.getD (npArgmax w5) 0) ∧
    (∀ k, k < w5.length → w5.getD k 0 = w5.getD (npArgmax w5) 0 →
      npArgmax w5 ≤ k) :=
  C5_category_is_first_argmax ⟨[0], [1]⟩ ⟨["protein", "carb"]⟩ 2 w5
    (by decide) (by decide)

/-! ## Claim C10 — the unused label lookup and its range condition -/

/-- C10: the sequence-path post-processing indexes `food_categories` at the
argmax even though it returns only the integer index: an out-of-range argmax
fails with an IndexError, an in-range argmax succeeds, and the looked-up
label never affects the returned result — any two category tables that both
cover the index yield identical results. -/
theorem C10_unused_label_lookup (sp : ScalerParams) (mc mc' : ModelConfig)
    (c : ℚ) (v : List ℚ) :
    (mc.food_categories.length ≤ npArgmax v →
      lstmPredictPost sp mc c v =
        Except.error "IndexError: list index out of range") ∧
    (npArgmax v < mc.food_categories.length →
      (lstmPredictPost sp mc c v).isOk = true) ∧
    (npArgmax v < mc.food_categories.length →
      npArgmax v < mc'.food_categories.length →
      lstmPredictPost sp mc c v = lstmPredictPost sp mc' c v) := by
  refine ⟨fun h => ?_, fun h => ?_, fun h h' => ?_⟩
  · simp [lstmPredictPost, Nat.not_lt.mpr h]
  · simp [lstmPredictPost, h, Except.isOk, Except.toBool]
  · simp [lstmPredictPost, h, h']

/-- Witness for C10: with a one-category table, the two-way head `[0, 5]`
has argmax 1 and fails; with two-category tables of different content the
result is identical and succeeds. -/
theorem C10_witness :
    lstmPredictPost ⟨[0], [1]⟩ ⟨["only"]⟩ 0 [0, 5] =
      Except.error "IndexError: list index out of range" ∧
    (lstmPredictPost ⟨[0], [1]⟩ ⟨["a", "b"]⟩ 0 [0, 5]).isOk = true ∧
    lstmPredictPost ⟨[0], [1]⟩ ⟨["a", "b"]⟩ 0 [0, 5] =
      lstmPredictPost ⟨[0], [1]⟩ ⟨["x", "y"]⟩ 0 [0, 5] := by
  have h := C10_unused_label_lookup ⟨[0], [1]⟩ ⟨["a", "b"]⟩ ⟨["x", "y"]⟩ 0 [0, 5]
  have h1 := C10_unused_label_lookup ⟨[0], [1]⟩ ⟨["only"]⟩ ⟨["x", "y"]⟩ 0 [0, 5]
  exact ⟨h1.1 (by decide), h.2.1 (by decide), h.2.2 (by decide) (by decide)⟩

/-! ## Claim C2 — what the sequence path rejects before the model runs -/

instance {ε : Type _} {α : Type _} [DecidableEq ε] [DecidableEq α] :
    DecidableEq (Except ε α) := fun a b =>
  match a, b with
  | Except.ok x, Except.ok y =>
    if h : x = y then isTrue (by rw [h])
    else isFalse (fun hc => h (Except.ok.inj hc))
  | Except.ok _, Except.error _ => isFalse (fun hc => Except.noConfusion hc)
  | Except.error _, Except.ok _ => isFalse (fun hc => Except.noConfusion hc)
  | Except.error x, Except.error y =>
    if h : x = y then isTrue (by rw [h])
    else isFalse (fun hc => h (Except.error.inj hc))

/-- A row holding a non-convertible entry casts to `none`. -/
lemma rowToFloats_eq_none : ∀ (row : List Entry) (e : Entry), e ∈ row →
    (∀ q, e ≠ Entry.num q) → rowToFloats row = none
  | [], e, he, _ => absurd he (List.not_mem_nil e)
  | a :: as, e, he, hnn => by
    rcases List.mem_cons.mp he with rfl | he'
    · cases e with
      | num q => exact absurd rfl (hnn q)
      | nonNum s => rfl
    · cases a with
      | num q => simp [rowToFloats, rowToFloats_eq_none as e he' hnn]
      | nonNum s => rfl

/-- A sequence holding a non-convertible row casts to `none`. -/
lemma seqToFloats_eq_none : ∀ (seq : List (List Entry)) (row : List Entry),
    row ∈ seq → rowToFloats row = none → seqToFloats seq = none
  | [], row, hr, _ => absurd hr (List.not_mem_nil row)
  | r :: rs, row, hr, hrow => by
    rcases List.mem_cons.mp hr with rfl | hr'
    · simp [seqToFloats, hrow]
    · simp [seqToFloats, seqToFloats_eq_none rs row hr' hrow]

/-- A 13-step, 9-feature, all-numeric sequence (one step short of 14). -/
def seq13 : List (List Entry) :=
  List.replicate 13 (List.replicate 9 (Entry.num 0))

/-- A model whose category head has one class. -/
def constModelA : LSTMModel := fun _ => (1, [1])

/-- A model whose category head has two classes. -/
def constModelB : LSTMModel := fun _ => (1, [0, 1])

/-- C2 counterexample: the sequence `seq13` has 13 (not 14) time steps, yet
`predict` raises no validation error — the float32 conversion accepts it and
the model *is* invoked on it: the outcome depends on the model (with
`constModelA` the call succeeds outright; with `constModelB` it reaches the
model and fails only afterwards, in the category lookup). -/
theorem C2_counterexample :
    seq13.length = 13 ∧
    (∀ row ∈ seq13, row.length = 9) ∧
    lstmPredict ⟨[0], [1000]⟩ ⟨["snack"]⟩ constModelA seq13 =
      Except.ok { calories := 1000, category := 0, categoryConfidence := 1 } ∧
    lstmPredict ⟨[0], [1000]⟩ ⟨["snack"]⟩ constModelB seq13 =
      Except.error "IndexError: list index out of range" := by
  have hconv : toFloat32Array seq13 =
      Except.ok (List.replicate 13 (List.replicate 9 (0 : ℚ))) := by decide
  refine ⟨by decide, by decide, ?_, ?_⟩
  · simp only [lstmPredict, hconv, constModelA]
    simp [lstmPredictPost, npArgmax, denormCalories]
  · simp only [lstmPredict, hconv, constModelB]
    simp [lstmPredictPost, npArgmax]

/-- C2 (amended): the sequence-path input conversion rejects, with a
ValueError-class failure raised before any model invocation (the outcome is
the same for every model), the sequences that defeat the float32 array
build: those containing a non-numeric entry and those with ragged rows.  A
wrong but uniform step count or feature count is not rejected. -/
theorem C2_conversion_rejects_nonnumeric (sp : ScalerParams) (mc : ModelConfig)
    (m m' : LSTMModel) (seq : List (List Entry))
    (hbad : (∃ row ∈ seq, ∃ e ∈ row, ∀ q, e ≠ Entry.num q) ∨
            (∃ row ∈ seq, row.length ≠ (seq.headD []).length)) :
    (∃ msg, lstmPredict sp mc m seq = Except.error msg) ∧
    lstmPredict sp mc m seq = lstmPredict sp mc m' seq := by
  have herr : ∃ msg, toFloat32Array seq = Except.error msg := by
    by_cases hall : (seq.all (fun row => row.length = (seq.headD []).length)) = true
    · rcases hbad with ⟨row, hr, e, he, hnn⟩ | ⟨row, hr, hlen⟩
      · have hseq : seqToFloats seq = none :=
          seqToFloats_eq_none seq row hr (rowToFloats_eq_none row e he hnn)
        refine ⟨"ValueError: could not convert entry to float32", ?_⟩
        simp only [toFloat32Array, if_pos hall, hseq]
      · exact absurd (by simpa using (List.all_eq_true.mp hall) row hr) hlen
    · refine ⟨"ValueError: inhomogeneous input shape", ?_⟩
      simp only [toFloat32Array, if_neg hall]
  obtain ⟨msg, hmsg⟩ := herr
  exact ⟨⟨msg, by simp [lstmPredict, hmsg]⟩, by simp [lstmPredict, hmsg]⟩

/-- A 14-step, 9-feature sequence whose eighth step carries a non-numeric
entry. -/
def seqBad : List (List Entry) :=
  List.replicate 7 (List.replicate 9 (Entry.num 0)) ++
    [Entry.nonNum "n/a" :: List.replicate 8 (Entry.num 0)] ++
    List.replicate 6 (List.replicate 9 (Entry.num 0))

/-- Witness for the amended C2 at the concrete sequence `seqBad`: the
conversion fails before the model is consulted, identically for the two
distinct models. -/
theorem C2_amended_witness :
    (∃ msg, lstmPredict ⟨[0], [1000]⟩ ⟨["snack"]⟩ constModelA seqBad =
      Except.error msg) ∧
    lstmPredict ⟨[0], [1000]⟩ ⟨["snack"]⟩ constModelA seqBad =
      lstmPredict ⟨[0], [1000]⟩ ⟨["snack"]⟩ constModelB seqBad :=
  C2_conversion_rejects_nonnumeric ⟨[0], [1000]⟩ ⟨["snack"]⟩
    constModelA constModelB seqBad
    (Or.inl ⟨Entry.nonNum "n/a" :: List.replicate 8 (Entry.num 0), by decide,
      Entry.nonNum "n/a", by decide, fun q h => Entry.noConfusion h⟩)

/-! ## Claim C8 — image decode failures surface as structured errors -/

/-- Raw bytes produced by base64 decoding. -/
abbrev ByteData := List Nat

/-- A decoded pixel grid (rows × columns × channels). -/
abbrev PixelGrid := List (List (List ℚ))

/-- The external capabilities used by the image path (`cnn_predict.py`):
`base64.b64decode`, `PIL.Image.open` (each of which may fail with a
message), the total RGB-conversion/resize step, and the loaded model
producing the 101-way score vector.  All are opaque to the core. -/
structure CNNEnv where
  b64decode : String → Except String ByteData
  imageOpen : ByteData → Except String PixelGrid
  convertResize : PixelGrid → PixelGrid
  model : PixelGrid → List ℚ

/-- `np.array(image) / 255.0` (`cnn_predict.py` line 103). -/
def normalizePixels (p : PixelGrid) : PixelGrid :=
  p.map (fun row => row.map (fun px => px.map (fun c => c / 255)))

/-- `preprocess_image` (`cnn_predict.py` lines 88-108): decode the base64
payload, open the image container, convert/resize, normalise; any failure
inside the `try` block is re-raised as
`ValueError("Failed to preprocess image: ...")`. -/
def preprocess_image (env : CNNEnv) (s : String) : Except String PixelGrid :=
  match env.b64decode s with
  | Except.error e => Except.error ("Failed to preprocess image: " ++ e)
  | Except.ok bytes =>
    match env.imageOpen bytes with
    | Except.error e => Except.error ("Failed to preprocess image: " ++ e)
    | Except.ok img => Except.ok (normalizePixels (env.convertResize img))

/-- The image-path `predict` (`cnn_predict.py` lines 110-149) with the model
already loaded: preprocess, invoke the model, post-process. -/
def cnnPredict (env : CNNEnv) (s : String) : Except String CNNResult :=
  match preprocess_image env s with
  | Except.error e => Except.error e
  | Except.ok t => Except.ok (cnnPredictPost (env.model t))

/-- The JSON body of a `POST /predict` request on the image path: absent,
or present with an optional `image` field. -/
inductive CNNRequest where
  | noJson
  | json (image : Option String)

/-- A JSON response body: a result dict or an `{error: ...}` object. -/
inductive RespBody where
  | result (r : CNNResult)
  | failure (msg : String)
  deriving DecidableEq

/-- An HTTP response: status code and JSON body. -/
structure HttpResponse where
  status : Nat
  body : RespBody
  deriving DecidableEq

/-- `predict_endpoint` (`cnn_predict.py` lines 178-192): 400 on a missing
body, 400 on a missing or falsy (empty) `image` field, 200 with the result
dict on success, and — because the whole handler body sits in a
`try/except` — 500 with `{error: str(e)}` on any raised exception.  The
handler never lets an exception escape. -/
def predict_endpoint (env : CNNEnv) (req : CNNRequest) : HttpResponse :=
  match req with
  | CNNRequest.noJson => ⟨400, RespBody.failure "No JSON data provided"⟩
  | CNNRequest.json none => ⟨400, RespBody.failure "Missing image"⟩
  | CNNRequest.json (some img) =>
    if img = "" then ⟨400, RespBody.failure "Missing image"⟩
    else
      match cnnPredict env img with
      | Except.ok r => ⟨200, RespBody.result r⟩
      | Except.error e => ⟨500, RespBody.failure e⟩

/-- C8: for every non-empty input string on which base64 decoding fails, or
decoding succeeds and image-container parsing fails, `preprocess_image`
fails with the caught, descriptive `Failed to preprocess image: ...` error,
and the endpoint surfaces it as a structured 500 JSON error response — the
handler function returns normally (no unhandled crash). -/
theorem C8_decode_error_surfaced (env : CNNEnv) (s : String) (hs : s ≠ "")
    (hfail : (∃ e, env.b64decode s = Except.error e) ∨
             (∃ b e, env.b64decode s = Except.ok b ∧
               env.imageOpen b = Except.error e)) :
    ∃ msg, preprocess_image env s =
        Except.error ("Failed to preprocess image: " ++ msg) ∧
      predict_endpoint env (CNNRequest.json (some s)) =
        ⟨500, RespBody.failure ("Failed to preprocess image: " ++ msg)⟩ := by
  have hpre : ∃ msg, preprocess_image env s =
      Except.error ("Failed to preprocess image: " ++ msg) := by
    rcases hfail with ⟨e, he⟩ | ⟨b, e, hb, he⟩
    · exact ⟨e, by simp only [preprocess_image, he]⟩
    · exact ⟨e, by simp only [preprocess_image, hb, he]⟩
  obtain ⟨msg, hmsg⟩ := hpre
  refine ⟨msg, hmsg, ?_⟩
  simp [predict_endpoint, hs, cnnPredict, hmsg]

/-- A concrete environment whose base64 decoder always fails, as on
malformed input. -/
def badB64Env : CNNEnv :=
  { b64decode := fun _ => Except.error "Invalid base64-encoded string"
    imageOpen := fun _ => Except.ok []
    convertResize := fun p => p
    model := fun _ => [] }

/-- Witness for C8 at the concrete input `"%%%not-base64"` under
`badB64Env`. -/
theorem C8_witness :
    ∃ msg, preprocess_image badB64Env "%%%not-base64" =
        Except.error ("Failed to preprocess image: " ++ msg) ∧
      predict_endpoint badB64Env (CNNRequest.json (some "%%%not-base64")) =
        ⟨500, RespBody.failure ("Failed to preprocess image: " ++ msg)⟩ :=
  C8_decode_error_surfaced badB64Env "%%%not-base64" (by decide)
    (Or.inl ⟨"Invalid base64-encoded string", rfl⟩)

/-! ## Claim C9 — missing sequence-path artifacts -/

/-- `MODEL_PATH` of `lstm_predict.py` (line 56), relative to the discovered
project root. -/
def LSTM_MODEL_PATH : String := "data/models/lstm/eating_pattern_model.h5"

/-- `SCALER_PATH` of `lstm_predict.py` (line 57). -/
def LSTM_SCALER_PATH : String := "data/models/lstm/scaler_params.json"

/-- `CONFIG_PATH` of `lstm_predict.py` (line 58). -/
def LSTM_CONFIG_PATH : String := "data/models/lstm/model_config.json"

/-- A FileNotFoundError-class condition carrying the offending path: raised
explicitly for the model binary (`raise FileNotFoundError(f"Model not
found: {MODEL_PATH}")`) and by Python's `open` for the two JSON files. -/
inductive LoadError where
  | fileNotFound (path : String)
  deriving DecidableEq

/-- The three artifacts the sequence path loads. -/
structure LstmArtifacts where
  model : LSTMModel
  scaler : ScalerParams
  config : ModelConfig

/-- The filesystem state seen by the sequence-path loader: which of the
three co-located files exist, and their contents when they do. -/
structure LstmFS where
  modelExists : Bool
  scalerExists : Bool
  configExists : Bool
  model : LSTMModel
  scaler : ScalerParams
  config : ModelConfig

/-- `load_model` of `lstm_predict.py` (lines 65-86).  A populated cache is
returned untouched (the memoized fast path); otherwise the model file's
existence is checked explicitly, then `scaler_params.json` and
`model_config.json` are opened in order, `open` raising FileNotFoundError
with the path when the file is absent. -/
def lstm_load_model (cache : Option LstmArtifacts) (fs : LstmFS) :
    Except LoadError LstmArtifacts :=
  match cache with
  | some a => Except.ok a
  | none =>
    if fs.modelExists then
      if fs.scalerExists then
        if fs.configExists then
          Except.ok ⟨fs.model, fs.scaler, fs.config⟩
        else Except.error (LoadError.fileNotFound LSTM_CONFIG_PATH)
      else Except.error (LoadError.fileNotFound LSTM_SCALER_PATH)
    else Except.error (LoadError.fileNotFound LSTM_MODEL_PATH)

/-- C9: on a first-use load (cold cache), whenever any of the three
co-located artifact files is absent, loading fails with a
FileNotFoundError-class error naming a path — and the named path is one of
the three whose file is indeed absent. -/
theorem C9_missing_artifact_load_fails (fs : LstmFS)
    (hmiss : fs.modelExists = false ∨ fs.scalerExists = false ∨
      fs.configExists = false) :
    ∃ p, lstm_load_model none fs = Except.error (LoadError.fileNotFound p) ∧
      ((p = LSTM_MODEL_PATH ∧ fs.modelExists = false) ∨
       (p = LSTM_SCALER_PATH ∧ fs.scalerExists = false) ∨
       (p = LSTM_CONFIG_PATH ∧ fs.configExists = false)) := by
  rcases hm : fs.modelExists with _ | _
  · exact ⟨LSTM_MODEL_PATH, by simp [lstm_load_model, hm], Or.inl ⟨rfl, rfl⟩⟩
  · rcases hsc : fs.scalerExists with _ | _
    · exact ⟨LSTM_SCALER_PATH, by simp [lstm_load_model, hm, hsc],
        Or.inr (Or.inl ⟨rfl, rfl⟩)⟩
    · rcases hc : fs.configExists with _ | _
      · exact ⟨LSTM_CONFIG_PATH, by simp [lstm_load_model, hm, hsc, hc],
          Or.inr (Or.inr ⟨rfl, rfl⟩)⟩
      · rcases hmiss with h | h | h
        · exact absurd (hm.symm.trans h) (by decide)
        · exact absurd (hsc.symm.trans h) (by decide)
        · exact absurd (hc.symm.trans h) (by decide)

/-- A filesystem state where only `scaler_params.json` is missing. -/
def fsNoScaler : LstmFS :=
  { modelExists := true
    scalerExists := false
    configExists := true
    model := fun _ => (0, [])
    scaler := ⟨[], []⟩
    config := ⟨[]⟩ }

/-- Witness for C9 at the concrete state `fsNoScaler`. -/
theorem C9_witness :
    ∃ p, lstm_load_model none fsNoScaler =
        Except.error (LoadError.fileNotFound p) ∧
      ((p = LSTM_MODEL_PATH ∧ fsNoScaler.modelExists = false) ∨
       (p = LSTM_SCALER_PATH ∧ fsNoScaler.scalerExists = false) ∨
       (p = LSTM_CONFIG_PATH ∧ fsNoScaler.configExists = false)) :=
  C9_missing_artifact_load_fails fsNoScaler (Or.inr (Or.inl rfl))
